import Mathlib

/-!
Verification of the Lumina browsing-surface manager (src-tauri/src/lib.rs):
the layout-geometry engine (`calculate_layout`), the tab lifecycle commands
(`create_tab`, `switch_tab`, `close_tab` acting on `UiState.current_tab` and
the window's webview registry), and the reachability corrector
(`check_and_redirect`).

Numeric code uses `f64` in the source; it is embedded over `ℚ`.  All the
operations involved are additions, subtractions and comparisons of small
integer-valued quantities, on which `f64` arithmetic is exact.  Host-layer
outcomes (URL parsing by the `url` crate, `add_child` success / error /
panic, the `reqwest` probe outcome) are inputs of the embedded functions.
-/

namespace Lumina

/-- Logical window size, as passed to `calculate_layout`. -/
structure LogicalSize where
  width : ℚ
  height : ℚ
deriving DecidableEq

/-- A screen rectangle (position and size). -/
structure Rect where
  x : ℚ
  y : ℚ
  width : ℚ
  height : ℚ
deriving DecidableEq

/-- Embedding of `calculate_layout` (lib.rs:1355).  Returns, as in the
source, the 5-tuple `(main_height, x, y, width, height)`: the height of the
main (primary) webview followed by position and size of the tab region. -/
def calculate_layout (logical_size : LogicalSize) (vertical_tabs menu_open : Bool)
    (suggestions_height : ℚ) : ℚ × ℚ × ℚ × ℚ × ℚ :=
  let top_bar_height : ℚ := 104 + suggestions_height
  let sidebar_width : ℚ := 200
  let menu_width : ℚ := 320
  let toolbar_height : ℚ := 60
  if vertical_tabs then
    let main_height := logical_size.height
    let x := sidebar_width
    let y := toolbar_height
    let width0 := logical_size.width - sidebar_width
    let width1 := if menu_open then width0 - menu_width else width0
    let width := if width1 < 0 then 0 else width1
    (main_height, x, y, width, logical_size.height - toolbar_height)
  else
    let width0 := logical_size.width
    let width1 := if menu_open then width0 - menu_width else width0
    let width := if width1 < 0 then 0 else width1
    let main_height := if menu_open then logical_size.height else top_bar_height
    (main_height, 0, top_bar_height, width, logical_size.height - top_bar_height)

/-- The rectangle given to the primary ("main") webview: the callers of
`calculate_layout` (`update_layout`, `create_tab`, the resize handler) all
run `main_webview.set_size(logical_size.width, main_height)` and leave it at
the window origin. -/
def primaryRect (logical_size : LogicalSize) (vertical_tabs menu_open : Bool)
    (suggestions_height : ℚ) : Rect :=
  ⟨0, 0, logical_size.width,
    (calculate_layout logical_size vertical_tabs menu_open suggestions_height).1⟩

/-- The rectangle given to every tab webview: position `(x, y)` and size
`(width, height)` from the `calculate_layout` tuple. -/
def secondaryRect (logical_size : LogicalSize) (vertical_tabs menu_open : Bool)
    (suggestions_height : ℚ) : Rect :=
  let r := calculate_layout logical_size vertical_tabs menu_open suggestions_height
  ⟨r.2.1, r.2.2.1, r.2.2.2.1, r.2.2.2.2⟩

/-! ## Tab lifecycle model

The window's webview registry is modelled as an association list from label
to visibility (`true` = shown).  The main webview (label `"main"`) is
present from startup.  `UiState.current_tab` (lib.rs:2312) is the
ActiveTabPointer.  Host-layer steps that can go several ways — URL parsing
and the `add_child` call — are inputs of `create_tab`. -/

/-- Outcome of the guarded `target_window.add_child` call in `create_tab`
(lib.rs:2822): normal success, a host-layer `Err`, or a panic caught by
`catch_unwind`. -/
inductive HostResult
  | success
  | hostError (msg : String)
  | panicked
deriving DecidableEq

/-- Lifecycle events emitted by the tab commands. -/
inductive Event
  | tabCreated (label url : String)
  | tabClosed (label : String)
deriving DecidableEq

/-- The state the tab commands act on: the registered webviews with their
visibility, and `UiState.current_tab`. -/
structure BrowserState where
  webviews : List (String × Bool)
  current_tab : Option String
deriving DecidableEq

/-- `app.get_webview(label)`, restricted to what the model tracks: the
visibility of the first (only) webview registered under the label, or
`none` when the label does not resolve. -/
def lookupW (ws : List (String × Bool)) (a : String) : Option Bool :=
  match ws with
  | [] => none
  | p :: t => if p.1 == a then some p.2 else lookupW t a

/-- `webview.hide()` / `webview.show()` on the webview labelled `l`:
update the visibility stored for that label, touch nothing else. -/
def setVis (ws : List (String × Bool)) (l : String) (v : Bool) :
    List (String × Bool) :=
  ws.map (fun p => if p.1 == l then (p.1, v) else p)

/-- `webview.close()`: the label no longer resolves afterwards. -/
def removeW (ws : List (String × Bool)) (l : String) : List (String × Bool) :=
  ws.filter (fun p => p.1 != l)

/-- The fallback loop in `switch_tab` (lib.rs:2928): when no current tab is
tracked yet, hide every webview other than `"main"` and the target. -/
def hideOthers (ws : List (String × Bool)) (label : String) :
    List (String × Bool) :=
  ws.map (fun p => if p.1 != "main" && p.1 != label then (p.1, false) else p)

/-- Whether the first character list is an initial segment of the second. -/
def leadsSeq : List Char → List Char → Bool
  | [], _ => true
  | _ :: _, [] => false
  | a :: ps, b :: ss => a == b && leadsSeq ps ss

/-- Whether `pat` occurs as a contiguous subsequence; Rust's
`str::contains` with a literal pattern. -/
def containsSeq (pat : List Char) : List Char → Bool
  | [] => pat.isEmpty
  | c :: rest => leadsSeq pat (c :: rest) || containsSeq pat rest

/-- Rust's `str::starts_with` with a literal pattern: a byte-prefix test,
which on UTF-8 strings is the character-prefix test. -/
def strLeads (pre s : String) : Bool := leadsSeq pre.data s.data

/-- The `lumina://` → `lumina-app://localhost/` rewriting at the top of
`create_tab` (lib.rs:2322). `String.replace` replaces every occurrence,
matching Rust's `str::replace`. -/
def normalize_url (url : String) : String :=
  if strLeads "lumina://" url then
    url.replace "lumina://" "lumina-app://localhost/"
  else if strLeads "lumina-app://" url then
    if !(containsSeq "lumina-app://localhost/".data url.data) then
      url.replace "lumina-app://" "lumina-app://localhost/"
    else url
  else url

/-- Embedding of the `create_tab` command (lib.rs:2318).  `parse_err` is the
outcome of `url.parse()` on the normalized URL (`none` = parsed); `host` is
the outcome of the guarded `add_child` call.  Returns the new state, the
events emitted, and the command's `Result`.  On success the source hides the
previously current webview (if it resolves), sets `current_tab`, shows the
new webview and emits `tab-created` with the normalized URL. -/
def create_tab (s : BrowserState) (label url : String)
    (parse_err : Option String) (host : HostResult) :
    BrowserState × List Event × Except String Unit :=
  let nurl := normalize_url url
  if (lookupW s.webviews label).isSome then
    (s, [], Except.ok ())
  else
    match parse_err with
    | some e => (s, [], Except.error ("Invalid URL: " ++ e))
    | none =>
      match host with
      | HostResult.panicked => (s, [], Except.error "add_child panicked")
      | HostResult.hostError e =>
          (s, [], Except.error ("Failed to create tab: " ++ e))
      | HostResult.success =>
          let ws1 := s.webviews ++ [(label, true)]
          let ws2 := match s.current_tab with
            | some old =>
                if (lookupW ws1 old).isSome then setVis ws1 old false else ws1
            | none => ws1
          let ws3 := setVis ws2 label true
          ({ webviews := ws3, current_tab := some label },
           [Event.tabCreated label nurl], Except.ok ())

/-- Embedding of the `switch_tab` command (lib.rs:2915): hide the tracked
current webview when it differs from the target (or, when none is tracked,
hide all webviews other than `"main"` and the target), show the target if it
resolves, and unconditionally set `current_tab` to the target label. -/
def switch_tab (s : BrowserState) (label : String) : BrowserState :=
  let ws1 := match s.current_tab with
    | some old =>
        if old != label then
          if (lookupW s.webviews old).isSome then setVis s.webviews old false
          else s.webviews
        else s.webviews
    | none => hideOthers s.webviews label
  let ws2 := if (lookupW ws1 label).isSome then setVis ws1 label true else ws1
  { webviews := ws2, current_tab := some label }

/-- Embedding of the `close_tab` command (lib.rs:2963): if the label
resolves, close that webview and emit `tab-closed`; otherwise do nothing.
`UiState.current_tab` is not read or written. -/
def close_tab (s : BrowserState) (label : String) :
    BrowserState × List Event :=
  if (lookupW s.webviews label).isSome then
    ({ webviews := removeW s.webviews label, current_tab := s.current_tab },
     [Event.tabClosed label])
  else (s, [])

/-- One external tab command, with the host-layer outcomes a `create`
encounters. -/
inductive Op
  | create (label url : String) (parse_err : Option String) (host : HostResult)
  | switch (label : String)
  | close (label : String)

/-- State reached after one command. -/
def step (s : BrowserState) : Op → BrowserState
  | Op.create label url p h => (create_tab s label url p h).1
  | Op.switch label => switch_tab s label
  | Op.close label => (close_tab s label).1

/-- Startup state: only the main webview, no ActiveTabPointer
(lib.rs:3504). -/
def initState : BrowserState :=
  { webviews := [("main", true)], current_tab := none }

/-- State after a sequence of commands from startup. -/
def run (ops : List Op) : BrowserState := ops.foldl step initState

/-- The visible Tab-kind webviews: label other than `"main"`, shown. -/
def visibleTabs (s : BrowserState) : List (String × Bool) :=
  s.webviews.filter (fun p => p.1 != "main" && p.2)

/-- Every visible Tab-kind webview is the one the ActiveTabPointer names. -/
def pointerMatches (s : BrowserState) : Bool :=
  s.webviews.all (fun p => p.1 == "main" || !p.2 || s.current_tab == some p.1)

/-- Number of registered webviews carrying a given label. -/
def countLabel (ws : List (String × Bool)) (label : String) : Nat :=
  ws.countP (fun p => p.1 == label)

/-! ## Reachability supervisor -/

/-- The error classification a failed `reqwest` send exposes, as consulted
by `check_and_redirect` (lib.rs:362): `is_connect` (connection refused or
DNS failure), `is_timeout`, `is_body`, plus the display message. -/
structure ProbeError where
  is_connect : Bool
  is_timeout : Bool
  is_body : Bool
  msg : String
deriving DecidableEq

/-- Outcome of the reachability probe `client.get(&url).send()`: any HTTP
response (with its status code), or an error. -/
inductive ProbeOutcome
  | ok (status : Nat)
  | err (e : ProbeError)
deriving DecidableEq

/-- The prefixes `check_and_redirect` skips outright (lib.rs:345). -/
def internalSkip (url : String) : Bool :=
  strLeads "tauri://" url || strLeads "file://" url ||
  strLeads "about:" url || strLeads "data:" url ||
  strLeads "lumina://" url

/-- UTF-8 bytes of one character. -/
def utf8Bytes (c : Char) : List Nat :=
  let n := c.toNat
  if n < 0x80 then [n]
  else if n < 0x800 then [0xC0 + n / 0x40, 0x80 + n % 0x40]
  else if n < 0x10000 then
    [0xE0 + n / 0x1000, 0x80 + n / 0x40 % 0x40, 0x80 + n % 0x40]
  else
    [0xF0 + n / 0x40000, 0x80 + n / 0x1000 % 0x40, 0x80 + n / 0x40 % 0x40,
     0x80 + n % 0x40]

/-- Uppercase hexadecimal digit. -/
def hexDigit (n : Nat) : Char :=
  if n < 10 then Char.ofNat (48 + n) else Char.ofNat (55 + n)

/-- A byte kept verbatim by `urlencoding::encode`: ASCII alphanumeric or
one of `-`, `_`, `.`, `~`. -/
def isUnreserved (c : Char) : Bool :=
  c.isAlphanum || c == '-' || c == '_' || c == '.' || c == '~'

/-- `urlencoding::encode`: percent-encode every byte of the UTF-8 form
except the unreserved ones, with uppercase hex digits. -/
def percentEncode (s : String) : String :=
  String.mk (s.data.foldr
    (fun c acc =>
      (if isUnreserved c then [c]
       else (utf8Bytes c).foldr
         (fun b a => '%' :: hexDigit (b / 16) :: hexDigit (b % 16) :: a) [])
      ++ acc) [])

/-- The address of the internal error view `check_and_redirect` navigates
an unreachable tab to (lib.rs:368). -/
def errorPageUrl (url msg : String) : String :=
  "tauri://localhost/error.html?url=" ++ percentEncode url ++
    "&err=" ++ percentEncode msg

/-- Embedding of `check_and_redirect` (lib.rs:344): skip the listed
internal prefixes; on any response do nothing; on a connect, timeout or
body-classified error dispatch one redirect of the webview to the error
page.  The result is the list of dispatched redirect targets. -/
def check_and_redirect (url : String) (outcome : ProbeOutcome) :
    List String :=
  if internalSkip url then []
  else
    match outcome with
    | ProbeOutcome.ok _ => []
    | ProbeOutcome.err e =>
        if e.is_connect || e.is_timeout || e.is_body then
          [errorPageUrl url e.msg]
        else []

/-- Propositional reading of `pointerMatches`. -/
def PointerOk (s : BrowserState) : Prop :=
  ∀ p ∈ s.webviews, p.1 ≠ "main" → p.2 = true → s.current_tab = some p.1

/-- The inductive invariant: webview labels are unique, and every visible
non-main webview is the one the ActiveTabPointer names. -/
def Inv (s : BrowserState) : Prop :=
  (s.webviews.map Prod.fst).Nodup ∧ PointerOk s

/-- A state with the main webview and one visible tab `"a"` that is the
current tab; used as concrete input in several theorems below. -/
def s0 : BrowserState :=
  { webviews := [("main", true), ("a", true)], current_tab := some "a" }

/-! ## Registry lemmas -/

theorem map_fst_setVis (ws : List (String × Bool)) (l : String) (v : Bool) :
    (setVis ws l v).map Prod.fst = ws.map Prod.fst := by
  induction ws with
  | nil => rfl
  | cons p t ih =>
      show (if p.1 == l then (p.1, v) else p).1 :: (setVis t l v).map Prod.fst
          = p.1 :: t.map Prod.fst
      rw [ih]
      by_cases h : p.1 == l
      · rw [if_pos h]
      · rw [if_neg h]

theorem map_fst_hideOthers (ws : List (String × Bool)) (label : String) :
    (hideOthers ws label).map Prod.fst = ws.map Prod.fst := by
  induction ws with
  | nil => rfl
  | cons p t ih =>
      show (if p.1 != "main" && p.1 != label then (p.1, false) else p).1 ::
          (hideOthers t label).map Prod.fst = p.1 :: t.map Prod.fst
      rw [ih]
      by_cases h : p.1 != "main" && p.1 != label
      · rw [if_pos h]
      · rw [if_neg h]

theorem lookup_eq_none_iff (ws : List (String × Bool)) (a : String) :
    lookupW ws a = none ↔ ∀ p ∈ ws, p.1 ≠ a := by
  induction ws with
  | nil => simp [lookupW]
  | cons p t ih =>
      obtain ⟨k, v⟩ := p
      by_cases h : k = a
      · subst h
        have hstep : lookupW ((k, v) :: t) k = some v := by simp [lookupW]
        rw [hstep]
        constructor
        · intro hl
          exact absurd hl (by simp)
        · intro hall
          exact absurd rfl (hall (k, v) (List.mem_cons_self _ _))
      · have hbeq : (k == a) = false := beq_eq_false_iff_ne.mpr h
        have hstep : lookupW ((k, v) :: t) a = lookupW t a := by
          simp [lookupW, hbeq]
        rw [hstep]
        constructor
        · intro hl q hq
          rcases List.mem_cons.mp hq with he | ht
          · rw [he]
            exact h
          · exact ih.mp hl q ht
        · intro hall
          exact ih.mpr fun q hq => hall q (List.mem_cons_of_mem _ hq)

theorem lookup_isSome_iff (ws : List (String × Bool)) (a : String) :
    (lookupW ws a).isSome = true ↔ ∃ p ∈ ws, p.1 = a := by
  constructor
  · intro h
    by_contra hc
    push_neg at hc
    rw [(lookup_eq_none_iff ws a).mpr hc] at h
    simp at h
  · rintro ⟨p, hp, he⟩
    cases hk : lookupW ws a with
    | some v => rfl
    | none => exact absurd he ((lookup_eq_none_iff ws a).mp hk p hp)

theorem mem_lookup_isSome {ws : List (String × Bool)} {p : String × Bool}
    (hp : p ∈ ws) : (lookupW ws p.1).isSome = true :=
  (lookup_isSome_iff ws p.1).mpr ⟨p, hp, rfl⟩

theorem mem_setVis {ws : List (String × Bool)} {l : String} {v : Bool}
    {p : String × Bool} (hp : p ∈ setVis ws l v) :
    (p.1 = l ∧ p.2 = v) ∨ (p ∈ ws ∧ p.1 ≠ l) := by
  simp only [setVis, List.mem_map] at hp
  obtain ⟨q, hq, he⟩ := hp
  by_cases h : q.1 == l
  · simp only [h, if_pos rfl] at he
    left
    rw [← he]
    exact ⟨by simpa using h, rfl⟩
  · rw [if_neg (by simpa using h)] at he
    right
    subst he
    exact ⟨hq, by simpa using h⟩

theorem mem_hideOthers {ws : List (String × Bool)} {label : String}
    {p : String × Bool} (hp : p ∈ hideOthers ws label) :
    p.2 = false ∨ (p ∈ ws ∧ (p.1 = "main" ∨ p.1 = label)) := by
  simp only [hideOthers, List.mem_map] at hp
  obtain ⟨q, hq, he⟩ := hp
  by_cases h : q.1 != "main" && q.1 != label
  · rw [if_pos h] at he
    left
    rw [← he]
  · rw [if_neg h] at he
    right
    subst he
    refine ⟨hq, ?_⟩
    by_cases hm : q.1 = "main"
    · exact Or.inl hm
    · right
      by_contra hl
      exact h (by simp [bne_iff_ne, hm, hl])

theorem mem_append_singleton {ws : List (String × Bool)}
    {q p : String × Bool} (hp : p ∈ ws ++ [q]) : p ∈ ws ∨ p = q := by
  rcases List.mem_append.mp hp with h | h
  · exact Or.inl h
  · exact Or.inr (List.mem_singleton.mp h)

/-! ## The exclusive-foreground invariant -/

theorem pointerMatches_iff (s : BrowserState) :
    pointerMatches s = true ↔ PointerOk s := by
  simp only [pointerMatches, PointerOk, List.all_eq_true, Bool.or_eq_true,
    beq_iff_eq, Bool.not_eq_true']
  constructor
  · intro h p hp hmain hvis
    rcases h p hp with (hm | hfalse) | hcur
    · exact absurd hm hmain
    · rw [hvis] at hfalse
      exact absurd hfalse (by simp)
    · exact hcur
  · intro h p hp
    by_cases hm : p.1 = "main"
    · exact Or.inl (Or.inl hm)
    · by_cases hv : p.2 = true
      · exact Or.inr (h p hp hm hv)
      · exact Or.inl (Or.inr (by simpa using hv))

theorem Inv_initState : Inv initState := by
  constructor
  · simp [initState]
  · intro p hp hmain _
    simp only [initState, List.mem_singleton] at hp
    exact absurd (by rw [hp]) hmain

theorem Inv_switch (s : BrowserState) (label : String) (h : Inv s) :
    Inv (switch_tab s label) := by
  obtain ⟨hnd, hpo⟩ := h
  have final : ∀ ws1 : List (String × Bool),
      ws1.map Prod.fst = s.webviews.map Prod.fst →
      (∀ p ∈ ws1, p.1 ≠ "main" → p.2 = true → p.1 = label) →
      Inv { webviews :=
              if (lookupW ws1 label).isSome then setVis ws1 label true else ws1,
            current_tab := some label } := by
    intro ws1 hkeys hvis
    by_cases hg : (lookupW ws1 label).isSome = true
    · rw [if_pos hg]
      refine ⟨by rw [map_fst_setVis, hkeys]; exact hnd, ?_⟩
      intro p hp hmain hvisp
      rcases mem_setVis hp with ⟨h1, _⟩ | ⟨hmem, _⟩
      · rw [h1]
      · rw [hvis p hmem hmain hvisp]
    · rw [if_neg hg]
      refine ⟨by rw [hkeys]; exact hnd, ?_⟩
      intro p hp hmain hvisp
      rw [hvis p hp hmain hvisp]
  cases hcur : s.current_tab with
  | none =>
      simp only [switch_tab, hcur]
      refine final _ (map_fst_hideOthers _ _) ?_
      intro p hp hmain hvisp
      rcases mem_hideOthers hp with hf | ⟨_, hm | hl⟩
      · rw [hvisp] at hf
        exact absurd hf (by simp)
      · exact absurd hm hmain
      · exact hl
  | some old =>
      simp only [switch_tab, hcur]
      by_cases hne : (old != label) = true
      · rw [if_pos hne]
        by_cases hgo : (lookupW s.webviews old).isSome = true
        · rw [if_pos hgo]
          refine final _ (map_fst_setVis _ _ _) ?_
          intro p hp hmain hvisp
          rcases mem_setVis hp with ⟨_, hf⟩ | ⟨hmem, hneo⟩
          · rw [hvisp] at hf
            exact absurd hf (by simp)
          · have := hpo p hmem hmain hvisp
            rw [hcur] at this
            exact absurd (Option.some_injective _ this).symm hneo
        · rw [if_neg hgo]
          refine final _ rfl ?_
          intro p hp hmain hvisp
          have := hpo p hp hmain hvisp
          rw [hcur] at this
          have hpold : p.1 = old := (Option.some_injective _ this).symm
          rw [← hpold] at hgo
          exact absurd (mem_lookup_isSome hp) hgo
      · rw [if_neg hne]
        have hol : old = label := by simpa using hne
        refine final _ rfl ?_
        intro p hp hmain hvisp
        have := hpo p hp hmain hvisp
        rw [hcur] at this
        rw [← (Option.some_injective _ this), hol]

theorem Inv_create (s : BrowserState) (label url : String)
    (pe : Option String) (host : HostResult) (h : Inv s) :
    Inv (create_tab s label url pe host).1 := by
  obtain ⟨hnd, hpo⟩ := h
  by_cases hex : (lookupW s.webviews label).isSome = true
  · simp only [create_tab, if_pos hex]
    exact ⟨hnd, hpo⟩
  · have hnone : lookupW s.webviews label = none := by
      cases hk : lookupW s.webviews label with
      | none => rfl
      | some v => rw [hk] at hex; simp at hex
    have hlab : label ∉ s.webviews.map Prod.fst := by
      intro hmem
      obtain ⟨p, hp, he⟩ := List.mem_map.mp hmem
      exact (lookup_eq_none_iff _ _).mp hnone p hp he
    have hnd1 : ((s.webviews ++ [(label, true)]).map Prod.fst).Nodup := by
      rw [List.map_append, List.nodup_append]
      refine ⟨hnd, List.nodup_singleton _, ?_⟩
      intro a ha hb
      rw [List.map_singleton, List.mem_singleton] at hb
      subst hb
      exact hlab ha
    cases pe with
    | some e =>
        simp only [create_tab, if_neg hex]
        exact ⟨hnd, hpo⟩
    | none =>
        cases host with
        | panicked =>
            simp only [create_tab, if_neg hex]
            exact ⟨hnd, hpo⟩
        | hostError e =>
            simp only [create_tab, if_neg hex]
            exact ⟨hnd, hpo⟩
        | success =>
            cases hcur : s.current_tab with
            | none =>
                simp only [create_tab, if_neg hex, hcur]
                constructor
                · rw [map_fst_setVis]
                  exact hnd1
                · intro p hp hmain hvisp
                  rcases mem_setVis hp with ⟨h1, _⟩ | ⟨hmem, hne⟩
                  · rw [h1]
                  · rcases mem_append_singleton hmem with hm | hm
                    · have := hpo p hm hmain hvisp
                      rw [hcur] at this
                      exact absurd this (by simp)
                    · exact absurd (by rw [hm]) hne
            | some old =>
                simp only [create_tab, if_neg hex, hcur]
                by_cases hgo :
                    ((lookupW (s.webviews ++ [(label, true)]) old).isSome) = true
                · rw [if_pos hgo]
                  constructor
                  · rw [map_fst_setVis, map_fst_setVis]
                    exact hnd1
                  · intro p hp hmain hvisp
                    rcases mem_setVis hp with ⟨h1, _⟩ | ⟨hmem, hne⟩
                    · rw [h1]
                    · rcases mem_setVis hmem with ⟨_, hf⟩ | ⟨hmem1, hneo⟩
                      · rw [hvisp] at hf
                        exact absurd hf (by simp)
                      · rcases mem_append_singleton hmem1 with hm | hm
                        · have := hpo p hm hmain hvisp
                          rw [hcur] at this
                          exact absurd (Option.some_injective _ this).symm hneo
                        · exact absurd (by rw [hm]) hne
                · rw [if_neg hgo]
                  constructor
                  · rw [map_fst_setVis]
                    exact hnd1
                  · intro p hp hmain hvisp
                    rcases mem_setVis hp with ⟨h1, _⟩ | ⟨hmem, hne⟩
                    · rw [h1]
                    · rcases mem_append_singleton hmem with hm | hm
                      · have := hpo p hm hmain hvisp
                        rw [hcur] at this
                        have hpold : p.1 = old := (Option.some_injective _ this).symm
                        have := mem_lookup_isSome (List.mem_append_left [(label, true)] hm)
                        rw [hpold] at this
                        exact absurd this hgo
                      · exact absurd (by rw [hm]) hne

theorem Inv_close (s : BrowserState) (label : String) (h : Inv s) :
    Inv (close_tab s label).1 := by
  obtain ⟨hnd, hpo⟩ := h
  by_cases hex : (lookupW s.webviews label).isSome = true
  · simp only [close_tab, if_pos hex]
    constructor
    · exact List.Nodup.sublist
        (List.Sublist.map Prod.fst (List.filter_sublist _)) hnd
    · intro p hp hmain hvisp
      exact hpo p (List.mem_of_mem_filter hp) hmain hvisp
  · simp only [close_tab, if_neg hex]
    exact ⟨hnd, hpo⟩

theorem Inv_step (s : BrowserState) (op : Op) (h : Inv s) : Inv (step s op) := by
  cases op with
  | create label url p hr => exact Inv_create s label url p hr h
  | switch label => exact Inv_switch s label h
  | close label => exact Inv_close s label h

theorem Inv_run (ops : List Op) : Inv (run ops) := by
  suffices h : ∀ (l : List Op) (s : BrowserState), Inv s → Inv (l.foldl step s) by
    exact h ops initState Inv_initState
  intro l
  induction l with
  | nil => exact fun s hs => hs
  | cons op t ih =>
      intro s hs
      exact ih (step s op) (Inv_step s op hs)

theorem visible_length_le_one (s : BrowserState) (h : Inv s) :
    (visibleTabs s).length ≤ 1 := by
  obtain ⟨hnd, hpo⟩ := h
  cases hv : visibleTabs s with
  | nil => simp
  | cons p t =>
      cases t with
      | nil => simp
      | cons q u =>
          exfalso
          have hsub : List.Sublist ((visibleTabs s).map Prod.fst)
              (s.webviews.map Prod.fst) :=
            List.Sublist.map Prod.fst (List.filter_sublist _)
          have hnd' : ((p :: q :: u).map Prod.fst).Nodup := by
            rw [← hv]
            exact List.Nodup.sublist hsub hnd
          have hpmem : p ∈ visibleTabs s := by
            rw [hv]; exact List.mem_cons_self _ _
          have hqmem : q ∈ visibleTabs s := by
            rw [hv]; exact List.mem_cons_of_mem _ (List.mem_cons_self _ _)
          have hp' := List.mem_filter.mp hpmem
          have hq' := List.mem_filter.mp hqmem
          have hp2 := hp'.2
          have hq2 := hq'.2
          rw [Bool.and_eq_true] at hp2 hq2
          obtain ⟨hpm, hpv⟩ := hp2
          obtain ⟨hqm, hqv⟩ := hq2
          have h1 := hpo p hp'.1 (bne_iff_ne.mp hpm) hpv
          have h2 := hpo q hq'.1 (bne_iff_ne.mp hqm) hqv
          rw [h1] at h2
          have heq : p.1 = q.1 := Option.some_injective _ h2
          rw [List.map_cons, List.map_cons, List.nodup_cons] at hnd'
          exact hnd'.1 (by rw [heq]; exact List.mem_cons_self _ _)

/-! ## Lookup and counting lemmas -/

theorem lookup_setVis_self (ws : List (String × Bool)) (l : String) (v : Bool) :
    lookupW (setVis ws l v) l = (lookupW ws l).map (fun _ => v) := by
  induction ws with
  | nil => rfl
  | cons p t ih =>
      obtain ⟨k, b⟩ := p
      by_cases h : k = l
      · subst h
        simp [setVis, lookupW]
      · have h1 : (k == l) = false := beq_eq_false_iff_ne.mpr h
        simpa [setVis, lookupW, h1] using ih

theorem lookup_setVis_ne (ws : List (String × Bool)) (l : String) (v : Bool)
    (a : String) (h : a ≠ l) :
    lookupW (setVis ws l v) a = lookupW ws a := by
  induction ws with
  | nil => rfl
  | cons p t ih =>
      obtain ⟨k, b⟩ := p
      by_cases hk : k = l
      · subst hk
        have h2 : (k == a) = false := beq_eq_false_iff_ne.mpr (Ne.symm h)
        simpa [setVis, lookupW, h2] using ih
      · have h1 : (k == l) = false := beq_eq_false_iff_ne.mpr hk
        by_cases ha : k = a
        · subst ha
          simp [setVis, lookupW, h1]
        · have h2 : (k == a) = false := beq_eq_false_iff_ne.mpr ha
          simpa [setVis, lookupW, h1, h2] using ih

theorem lookup_removeW_self (ws : List (String × Bool)) (l : String) :
    lookupW (removeW ws l) l = none := by
  rw [lookup_eq_none_iff]
  intro p hp
  exact bne_iff_ne.mp (List.mem_filter.mp hp).2

theorem countLabel_setVis (ws : List (String × Bool)) (l : String) (v : Bool)
    (a : String) : countLabel (setVis ws l v) a = countLabel ws a := by
  unfold countLabel setVis
  rw [List.countP_map]
  congr 1
  funext p
  by_cases h : p.1 = l <;> simp [h]

theorem countLabel_append_self (ws : List (String × Bool)) (label : String)
    (v : Bool) : countLabel (ws ++ [(label, v)]) label = countLabel ws label + 1 := by
  unfold countLabel
  rw [List.countP_append]
  simp

theorem countLabel_eq_zero (ws : List (String × Bool)) (label : String)
    (h : lookupW ws label = none) : countLabel ws label = 0 := by
  unfold countLabel
  rw [List.countP_eq_zero]
  intro p hp
  simp only [beq_iff_eq]
  exact (lookup_eq_none_iff _ _).mp h p hp

/-- When a label already resolves to a webview, `create_tab` is the
identity: it returns `Ok` early, emits nothing, changes nothing. -/
theorem create_tab_existing (s : BrowserState) (label url : String)
    (pe : Option String) (ho : HostResult)
    (h : (lookupW s.webviews label).isSome = true) :
    create_tab s label url pe ho = (s, [], Except.ok ()) := by
  simp only [create_tab, if_pos h]

/-- After a successful `create_tab` of a fresh label, exactly one more
webview carries that label, and the label resolves. -/
theorem create_tab_success_count (s : BrowserState) (label url : String)
    (hfresh : lookupW s.webviews label = none) :
    countLabel (create_tab s label url none HostResult.success).1.webviews label
      = countLabel s.webviews label + 1 ∧
    ((lookupW (create_tab s label url none HostResult.success).1.webviews
        label).isSome) = true := by
  have hex : ¬ (lookupW s.webviews label).isSome = true := by
    rw [hfresh]; simp
  have hmem1 : (lookupW (s.webviews ++ [(label, true)]) label).isSome = true :=
    mem_lookup_isSome (p := (label, true))
      (List.mem_append_right _ (List.mem_singleton.mpr rfl))
  have isSome_map : ∀ (o : Option Bool) (f : Bool → Bool),
      (o.map f).isSome = o.isSome := by
    intro o f
    cases o <;> rfl
  cases hcur : s.current_tab with
  | none =>
      simp only [create_tab, if_neg hex, hcur]
      refine ⟨?_, ?_⟩
      · rw [countLabel_setVis, countLabel_append_self]
      · rw [lookup_setVis_self, isSome_map]
        exact hmem1
  | some old =>
      simp only [create_tab, if_neg hex, hcur]
      by_cases hgo : ((lookupW (s.webviews ++ [(label, true)]) old).isSome) = true
      · rw [if_pos hgo]
        refine ⟨?_, ?_⟩
        · rw [countLabel_setVis, countLabel_setVis, countLabel_append_self]
        · rw [lookup_setVis_self, isSome_map]
          by_cases hol : old = label
          · subst hol
            rw [lookup_setVis_self, isSome_map]
            exact hmem1
          · rw [lookup_setVis_ne _ _ _ _ (fun he => hol he.symm)]
            exact hmem1
      · rw [if_neg hgo]
        refine ⟨?_, ?_⟩
        · rw [countLabel_setVis, countLabel_append_self]
        · rw [lookup_setVis_self, isSome_map]
          exact hmem1

/-! ## C4: layout rectangle non-negativity -/

/-- C4 counterexample: the window `1200×0` has non-negative width and
height and `suggestions_height = 0`, yet with `vertical_tabs = true` the
computed tab-region height is `0 - 60 = -60 < 0`: `calculate_layout` clamps
widths but not heights, so the claimed non-negativity fails. -/
theorem c4_layout_nonneg_counterexample :
    (Lumina.secondaryRect ⟨1200, 0⟩ true false 0).height = -60 ∧
    (Lumina.secondaryRect ⟨1200, 0⟩ true false 0).height < 0 := by
  constructor <;>
    norm_num [Lumina.secondaryRect, Lumina.calculate_layout]

/-- C4 amended: for every window with non-negative width whose height is at
least the top-bar height `104 + suggestions_height` (which also exceeds the
vertical-mode toolbar height 60), and non-negative suggestions height, the
primary and secondary rectangles all have non-negative width and height.
Widths are clamped to zero by `calculate_layout`; the height bound is what
the missing height clamp forces. -/
theorem c4_layout_nonneg (sz : Lumina.LogicalSize) (v m : Bool) (sh : ℚ)
    (hw : 0 ≤ sz.width) (hsh : 0 ≤ sh) (hh : 104 + sh ≤ sz.height) :
    0 ≤ (Lumina.primaryRect sz v m sh).width ∧
    0 ≤ (Lumina.primaryRect sz v m sh).height ∧
    0 ≤ (Lumina.secondaryRect sz v m sh).width ∧
    0 ≤ (Lumina.secondaryRect sz v m sh).height := by
  simp only [Lumina.primaryRect, Lumina.secondaryRect, Lumina.calculate_layout]
  cases v <;> cases m <;>
    simp only [if_true, if_false, Bool.false_eq_true, ite_true, ite_false] <;>
    refine ⟨hw, ?_, ?_, ?_⟩ <;>
    first
      | (split <;> linarith)
      | linarith

/-- C4 witness: the amended statement applied to the 1200×800 window. -/
theorem c4_layout_nonneg_witness :
    0 ≤ (Lumina.primaryRect ⟨1200, 800⟩ false false 0).width ∧
    0 ≤ (Lumina.primaryRect ⟨1200, 800⟩ false false 0).height ∧
    0 ≤ (Lumina.secondaryRect ⟨1200, 800⟩ false false 0).width ∧
    0 ≤ (Lumina.secondaryRect ⟨1200, 800⟩ false false 0).height :=
  c4_layout_nonneg ⟨1200, 800⟩ false false 0 (by norm_num) (by norm_num)
    (by norm_num)

/-! ## C8: concrete layout scenarios -/

/-- C8 counterexample: in scenario B (window `1200×800`,
`vertical_tabs = true`, sidebar closed) the primary webview is resized to
the full window width (`main_webview.set_size(logical_size.width,
main_height)`), so its rectangle is `(0,0,1200,800)`, not the claimed
`(0,0,200,800)`. -/
theorem c8_layout_scenarios_counterexample :
    Lumina.primaryRect ⟨1200, 800⟩ true false 0 = ⟨0, 0, 1200, 800⟩ ∧
    Lumina.primaryRect ⟨1200, 800⟩ true false 0 ≠ ⟨0, 0, 200, 800⟩ := by
  constructor <;>
    norm_num [Lumina.primaryRect, Lumina.calculate_layout, Lumina.Rect.mk.injEq]

/-- C8 amended: scenario A is as claimed — window `1200×800`, horizontal
tabs, sidebar closed, no suggestions give primary `(0,0,1200,104)` and
secondary `(0,104,1200,696)`; in scenario B (vertical tabs) the secondary
rect is `(200,60,1000,740)` as claimed but the primary rect is
`(0,0,1200,800)`: full window width, not the 200-pixel rail. -/
theorem c8_layout_scenarios :
    Lumina.primaryRect ⟨1200, 800⟩ false false 0 = ⟨0, 0, 1200, 104⟩ ∧
    Lumina.secondaryRect ⟨1200, 800⟩ false false 0 = ⟨0, 104, 1200, 696⟩ ∧
    Lumina.primaryRect ⟨1200, 800⟩ true false 0 = ⟨0, 0, 1200, 800⟩ ∧
    Lumina.secondaryRect ⟨1200, 800⟩ true false 0 = ⟨200, 60, 1000, 740⟩ := by
  refine ⟨?_, ?_, ?_, ?_⟩ <;>
    norm_num [Lumina.primaryRect, Lumina.secondaryRect,
      Lumina.calculate_layout, Lumina.Rect.mk.injEq]

/-! ## C9: no rejection of malformed window sizes -/

/-- C9 counterexample: `calculate_layout` has no error result at all; on
the malformed window `-5×-5` it returns the ordinary tuple
`(104, 0, 104, 0, -109)` — an invalid (negative-height) secondary rectangle
is propagated silently instead of a `GeometryError` being raised.  (`NaN`
has no counterpart in the exact embedding; a negative size already refutes
the claim.) -/
theorem c9_geometry_error_counterexample :
    Lumina.calculate_layout ⟨-5, -5⟩ false false 0 = (104, 0, 104, 0, -109) ∧
    (Lumina.secondaryRect ⟨-5, -5⟩ false false 0).height < 0 := by
  constructor <;>
    norm_num [Lumina.secondaryRect, Lumina.calculate_layout, Prod.ext_iff]

/-- C9 amended: `calculate_layout` is a total function with no failure
path: every input — malformed window sizes included — produces rectangles
(the tab-region width is clamped to be non-negative, its height is not);
no input is rejected. -/
theorem c9_no_rejection (sz : Lumina.LogicalSize) (v m : Bool) (sh : ℚ) :
    0 ≤ (Lumina.secondaryRect sz v m sh).width := by
  simp only [Lumina.secondaryRect, Lumina.calculate_layout]
  cases v <;> cases m <;>
    simp only [if_true, if_false, Bool.false_eq_true, ite_true, ite_false] <;>
    split <;> linarith

/-! ## C1: exclusive-foreground invariant -/

/-- C1: after every sequence of `create_tab`, `switch_tab` and `close_tab`
commands from the startup state, at most one Tab-kind webview (label other
than `"main"`) is visible, and every visible Tab-kind webview is exactly the
one named by the ActiveTabPointer `UiState.current_tab`. -/
theorem c1_exclusive_foreground (ops : List Op) :
    (visibleTabs (run ops)).length ≤ 1 ∧ pointerMatches (run ops) = true :=
  ⟨visible_length_le_one _ (Inv_run ops),
   (pointerMatches_iff _).mpr (Inv_run ops).2⟩

/-- C1 witness: the invariant evaluated after a concrete command
sequence. -/
theorem c1_exclusive_foreground_witness :
    (visibleTabs (run
        [Op.create "a" "https://example.com" none HostResult.success,
         Op.create "b" "https://example.org" none HostResult.success,
         Op.switch "a", Op.close "a"])).length ≤ 1 ∧
    pointerMatches (run
        [Op.create "a" "https://example.com" none HostResult.success,
         Op.create "b" "https://example.org" none HostResult.success,
         Op.switch "a", Op.close "a"]) = true :=
  c1_exclusive_foreground
    [Op.create "a" "https://example.com" none HostResult.success,
     Op.create "b" "https://example.org" none HostResult.success,
     Op.switch "a", Op.close "a"]

/-! ## C2: switch_tab on an unknown label -/

/-- C2 counterexample: with tab `"a"` current and visible,
`switch_tab "u"` for the unresolved label `"u"` both moves the
ActiveTabPointer (to `some "u"`) and hides `"a"` — it is not the claimed
no-op. -/
theorem c2_switch_unknown_counterexample :
    (switch_tab s0 "u").current_tab ≠ s0.current_tab ∧
    lookupW (switch_tab s0 "u").webviews "a" ≠ lookupW s0.webviews "a" := by
  constructor <;> decide

/-- C2 amended: when the target label does not resolve and a different
current tab is tracked, `switch_tab` hides the tracked current webview,
leaves every other webview's visibility unchanged, shows nothing, and sets
the ActiveTabPointer to the unresolved label. -/
theorem c2_switch_unknown (s : BrowserState) (old label : String)
    (hcur : s.current_tab = some old) (hne : old ≠ label)
    (hres : lookupW s.webviews label = none) :
    (switch_tab s label).current_tab = some label ∧
    lookupW (switch_tab s label).webviews old
      = (lookupW s.webviews old).map (fun _ => false) ∧
    ∀ l, l ≠ old → lookupW (switch_tab s label).webviews l
      = lookupW s.webviews l := by
  have hne' : (old != label) = true := bne_iff_ne.mpr hne
  simp only [switch_tab, hcur, hne', if_true]
  by_cases hgo : (lookupW s.webviews old).isSome = true
  · rw [if_pos hgo]
    have hshow : ¬ ((lookupW (setVis s.webviews old false) label).isSome) = true := by
      rw [lookup_setVis_ne _ _ _ _ (Ne.symm hne), hres]
      simp
    rw [if_neg hshow]
    refine ⟨by trivial, lookup_setVis_self _ _ _, ?_⟩
    intro l hl
    exact lookup_setVis_ne _ _ _ _ hl
  · rw [if_neg hgo]
    have hshow : ¬ ((lookupW s.webviews label).isSome) = true := by
      rw [hres]
      simp
    rw [if_neg hshow]
    have hnone : lookupW s.webviews old = none := by
      cases hk : lookupW s.webviews old with
      | none => rfl
      | some b => rw [hk] at hgo; simp at hgo
    rw [hnone]
    exact ⟨by trivial, by trivial, fun l _ => by trivial⟩

/-- C2 witness: the amended statement evaluated at the concrete state
`s0`. -/
theorem c2_switch_unknown_witness :
    (switch_tab s0 "u").current_tab = some "u" ∧
    lookupW (switch_tab s0 "u").webviews "a" = some false := by
  have h := c2_switch_unknown s0 "a" "u" rfl (by decide) rfl
  refine ⟨h.1, ?_⟩
  rw [h.2.1]
  rfl

/-! ## C3: close_tab and the ActiveTabPointer -/

/-- C3 counterexample: with tab `"a"` current and visible, `close_tab "a"`
does close the webview and emit `tab-closed`, but the ActiveTabPointer does
not become `none` — `close_tab` (lib.rs:2963) never touches
`UiState.current_tab`. -/
theorem c3_close_counterexample :
    (close_tab s0 "a").2 = [Event.tabClosed "a"] ∧
    (close_tab s0 "a").1.current_tab ≠ none := by
  constructor <;> decide

/-- C3 amended: `close_tab` always leaves the ActiveTabPointer exactly as
it was; on a resolving label it closes that webview (the label no longer
resolves) and emits `tab-closed`, and on a non-resolving label it is a
silent no-op emitting no event. -/
theorem c3_close_behavior (s : BrowserState) (label : String) :
    (close_tab s label).1.current_tab = s.current_tab ∧
    ((lookupW s.webviews label).isSome = true →
      lookupW (close_tab s label).1.webviews label = none ∧
      (close_tab s label).2 = [Event.tabClosed label]) ∧
    ((lookupW s.webviews label).isSome = false →
      close_tab s label = (s, [])) := by
  by_cases h : (lookupW s.webviews label).isSome = true
  · simp only [close_tab, if_pos h]
    exact ⟨by trivial, fun _ => ⟨lookup_removeW_self _ _, by trivial⟩,
      fun hf => absurd h (by simp [hf])⟩
  · simp only [close_tab, if_neg h]
    exact ⟨by trivial, fun ht => absurd ht h, fun _ => by trivial⟩

/-- C3 witness: the amended statement evaluated at the concrete state
`s0`. -/
theorem c3_close_behavior_witness :
    (close_tab s0 "a").1.current_tab = some "a" ∧
    lookupW (close_tab s0 "a").1.webviews "a" = none ∧
    (close_tab s0 "a").2 = [Event.tabClosed "a"] := by
  have h := c3_close_behavior s0 "a"
  have h2 := h.2.1 (by decide)
  exact ⟨h.1, h2.1, h2.2⟩

/-! ## C5: create_tab idempotence on the label -/

/-- C5: when a label already resolves, `create_tab` returns success and
changes nothing — no second webview, no event; consequently two consecutive
`create_tab` calls for a fresh label register exactly one webview for it
and the second call still returns success. -/
theorem c5_create_idempotent (s : BrowserState) (label url url2 : String)
    (pe pe2 : Option String) (ho ho2 : HostResult) :
    ((lookupW s.webviews label).isSome = true →
      create_tab s label url pe ho = (s, [], Except.ok ())) ∧
    (lookupW s.webviews label = none →
      countLabel (create_tab (create_tab s label url none
          HostResult.success).1 label url2 pe2 ho2).1.webviews label = 1 ∧
      (create_tab (create_tab s label url none
          HostResult.success).1 label url2 pe2 ho2).2.2 = Except.ok ()) := by
  refine ⟨fun h => create_tab_existing s label url pe ho h, fun hfresh => ?_⟩
  have h := create_tab_success_count s label url hfresh
  rw [create_tab_existing _ _ _ _ _ h.2]
  refine ⟨?_, rfl⟩
  rw [h.1, countLabel_eq_zero _ _ hfresh]

/-- C5 witness: creating `"t1"` twice from the startup state yields exactly
one webview registered for `"t1"` and a success result for the second
call. -/
theorem c5_create_idempotent_witness :
    countLabel (create_tab (create_tab initState "t1" "https://example.com"
        none HostResult.success).1 "t1" "https://example.com" none
        HostResult.success).1.webviews "t1" = 1 ∧
    (create_tab (create_tab initState "t1" "https://example.com"
        none HostResult.success).1 "t1" "https://example.com" none
        HostResult.success).2.2 = Except.ok () :=
  (c5_create_idempotent initState "t1" "https://example.com"
      "https://example.com" none none HostResult.success
      HostResult.success).2 rfl

/-! ## C6: create_tab under host-layer failure -/

/-- C6: when the label is fresh and the URL parses, a host-layer error or a
panic in `add_child` makes `create_tab` return an explicit error, emit no
event, and leave the state — webview registry and ActiveTabPointer —
completely unchanged: the failed tab is never registered or made active. -/
theorem c6_create_failure (s : BrowserState) (label url e : String)
    (hfresh : lookupW s.webviews label = none) :
    create_tab s label url none (HostResult.hostError e)
      = (s, [], Except.error ("Failed to create tab: " ++ e)) ∧
    create_tab s label url none HostResult.panicked
      = (s, [], Except.error "add_child panicked") := by
  have hex : ¬ (lookupW s.webviews label).isSome = true := by
    rw [hfresh]
    simp
  constructor <;> simp only [create_tab, if_neg hex]

/-- C6 witness: the failure behaviour evaluated from the startup state. -/
theorem c6_create_failure_witness :
    create_tab initState "a" "http://example.com" none
        (HostResult.hostError "boom")
      = (initState, [], Except.error ("Failed to create tab: " ++ "boom")) ∧
    create_tab initState "a" "http://example.com" none HostResult.panicked
      = (initState, [], Except.error "add_child panicked") :=
  c6_create_failure initState "a" "http://example.com" "boom" rfl

/-! ## C7: reachability probe and correction -/

/-- C7 counterexample: the canonical internal form
`lumina-app://localhost/...` is not in `check_and_redirect`'s skip list
(which covers only `tauri://`, `file://`, `about:`, `data:`, `lumina://`),
so a connection-refused probe outcome for it dispatches an error-view
correction — the claim that internal-scheme URLs are never corrected
fails. -/
theorem c7_probe_counterexample :
    internalSkip "lumina-app://localhost/index.html" = false ∧
    (check_and_redirect "lumina-app://localhost/index.html"
        (ProbeOutcome.err ⟨true, false, false, "connection refused"⟩)).length
      = 1 := by
  constructor <;> rfl

/-- C7 amended: any HTTP response (any status, 4xx/5xx included) produces
no correction; a connect-classified (refused/DNS) or timeout failure on a
URL outside the skip list produces exactly one redirect, to the internal
error page with the original URL and the error message both
percent-encoded; URLs with the skipped internal prefixes (`tauri://`,
`file://`, `about:`, `data:`, `lumina://`) are never corrected.  The
canonical `lumina-app://` form is not skipped and is treated like an
external URL. -/
theorem c7_probe_correction (url : String) (st : Nat) (e : ProbeError)
    (o : ProbeOutcome) :
    (check_and_redirect url (ProbeOutcome.ok st) = []) ∧
    (internalSkip url = false → (e.is_connect = true ∨ e.is_timeout = true) →
      check_and_redirect url (ProbeOutcome.err e)
        = [errorPageUrl url e.msg]) ∧
    (internalSkip url = true → check_and_redirect url o = []) := by
  refine ⟨?_, ?_, ?_⟩
  · unfold check_and_redirect
    split
    · rfl
    · rfl
  · intro hskip hconn
    have hc : (e.is_connect || e.is_timeout || e.is_body) = true := by
      rcases hconn with h | h <;> simp [h]
    simp [check_and_redirect, hskip, hc]
  · intro hskip
    simp [check_and_redirect, hskip]

/-- C7 witness: a connection-refused probe of an external URL dispatches
exactly the percent-encoded error-page redirect; an HTTP 404 response
dispatches nothing. -/
theorem c7_probe_correction_witness :
    check_and_redirect "http://localhost:9"
        (ProbeOutcome.err ⟨true, false, false, "error trying to connect"⟩)
      = [errorPageUrl "http://localhost:9" "error trying to connect"] ∧
    check_and_redirect "http://example.com/" (ProbeOutcome.ok 404) = [] := by
  refine ⟨?_, ?_⟩
  · exact (c7_probe_correction "http://localhost:9" 404
      ⟨true, false, false, "error trying to connect"⟩
      (ProbeOutcome.ok 404)).2.1 rfl (Or.inl rfl)
  · exact (c7_probe_correction "http://example.com/" 404
      ⟨true, false, false, "x"⟩ (ProbeOutcome.ok 404)).1

/-! ## C10: create_tab on an unparseable URL -/

/-- C10 counterexample: when the label already resolves, `create_tab`
returns `Ok` before the URL is ever parsed, so a URL that fails parsing
does not produce the claimed `Invalid URL` error: with `"a"` registered,
`create_tab "a"` on an unparseable URL succeeds. -/
theorem c10_invalid_url_counterexample :
    create_tab s0 "a" "http://exa mple.com"
        (some "invalid domain character") HostResult.success
      = (s0, [], Except.ok ()) := by
  rfl

/-- C10 amended: for a label that does not already resolve, a URL whose
parse (after internal-scheme normalization) fails with message `e` makes
`create_tab` return `Invalid URL: e` before any webview is built: no
webview is registered, no event is emitted, and the state — including the
ActiveTabPointer — is unchanged. -/
theorem c10_invalid_url (s : BrowserState) (label url e : String)
    (ho : HostResult) (hfresh : lookupW s.webviews label = none) :
    create_tab s label url (some e) ho
      = (s, [], Except.error ("Invalid URL: " ++ e)) := by
  have hex : ¬ (lookupW s.webviews label).isSome = true := by
    rw [hfresh]
    simp
  simp only [create_tab, if_neg hex]

/-- C10 witness: the amended statement evaluated from the startup state. -/
theorem c10_invalid_url_witness :
    create_tab initState "a" "http://exa mple.com"
        (some "invalid domain character") HostResult.success
      = (initState, [],
         Except.error ("Invalid URL: " ++ "invalid domain character")) :=
  c10_invalid_url initState "a" "http://exa mple.com"
    "invalid domain character" HostResult.success rfl

end Lumina

